import Mathlib

/-!
Verification development for the four Mistral example commands
(`ai_mistral_text`, `ai_mistral_embeddings`, `mistral_moderations`,
`ai_mistral_image_gen`).  Each Python command is shallowly embedded as a
Lean function over JSON-like values; the outbound HTTP call (and, for
image generation, the SDK calls) are oracle parameters, so that a single
Lean function captures the command's behaviour on every possible remote
outcome.  Uncaught Python exceptions are modelled explicitly as a
`raised` outcome carrying the context at the moment of the raise.
-/

namespace Mistral

/-- JSON-compatible Python values, as they occur in `args`/`context`.
Numbers are modelled as rationals (their textual formatting is
approximated in `pyRepr`; no claim inspects it). -/
inductive JValue where
  | null
  | bool (b : Bool)
  | num (q : Rat)
  | str (s : String)
  | arr (xs : List JValue)
  | obj (kvs : List (String × JValue))

/-- Python truthiness (`if not x:`) of a JSON value. -/
def JValue.truthy : JValue → Bool
  | .null => false
  | .bool b => b
  | .num q => !(q == 0)
  | .str s => !(s == "")
  | .arr xs => !xs.isEmpty
  | .obj kvs => !kvs.isEmpty

/-- `isinstance(x, str)`. -/
def JValue.isStr : JValue → Bool
  | .str _ => true
  | _ => false

/-- `x is None`. -/
def JValue.isNull : JValue → Bool
  | .null => true
  | _ => false

mutual
/-- Python `repr` of a JSON value (numeric formatting approximated). -/
def pyRepr : JValue → String
  | .null => "None"
  | .bool true => "True"
  | .bool false => "False"
  | .num q => toString q
  | .str s => "\x27" ++ s ++ "\x27"
  | .arr xs => "[" ++ pyReprList xs ++ "]"
  | .obj kvs => "\x7b" ++ pyReprPairs kvs ++ "\x7d"

/-- Comma-separated `repr`s of list elements. -/
def pyReprList : List JValue → String
  | [] => ""
  | [v] => pyRepr v
  | v :: rest => pyRepr v ++ ", " ++ pyReprList rest

/-- Comma-separated `repr`s of dict entries. -/
def pyReprPairs : List (String × JValue) → String
  | [] => ""
  | [(k, v)] => "\x27" ++ k ++ "\x27: " ++ pyRepr v
  | (k, v) :: rest => "\x27" ++ k ++ "\x27: " ++ pyRepr v ++ ", " ++ pyReprPairs rest
end

/-- Python `str` of a JSON value, as used by the f-strings building
context keys (`f"..._error"`). -/
def pyStr : JValue → String
  | .str s => s
  | v => pyRepr v

/-- The mutable `context` dict.  Keys are strings:  the commands build
every error/usage key with an f-string, and store the success value
under `set_context`, which the spec and all scenarios take to be a
string (for a string key the embedding coincides exactly with the
Python dict). -/
abbrev Ctx := List (String × JValue)

/-- `context.get(k)` (`None`-free: `none` when the key is absent). -/
def Ctx.get (c : Ctx) (k : String) : Option JValue :=
  List.lookup k c

/-- `context[k] = v`.  Prepending shadows any earlier binding, which is
observationally the dict update. -/
def Ctx.set (c : Ctx) (k : String) (v : JValue) : Ctx :=
  (k, v) :: c

/-- `set_name = context.get("set_context", "prev")`, converted to the
string the f-strings produce. -/
def setNameOf (ctx : Ctx) : String :=
  pyStr ((Ctx.get ctx "set_context").getD (.str "prev"))

/-- Outcome of `requests.post` and of `response.json()`:  either the
request raises `requests.RequestException`, or a response arrives with a
status code, a body text, and a decode outcome (`Except.error` =
`response.json()` raises, carrying the exception's message). -/
inductive HttpResult where
  | reqError (msg : String)
  | response (status : Nat) (text : String) (json : Except String JValue)

/-- Result of running a command body: a returned status with the final
context, or an uncaught Python exception with the context at raise
time. -/
inductive POutcome where
  | ok (ret : Int) (ctx : Ctx)
  | raised (exn : String) (ctx : Ctx)

/-- The context as the caller observes it after the call (the dict is
mutated in place, so it is visible even through an exception). -/
def POutcome.ctxOf : POutcome → Ctx
  | .ok _ c => c
  | .raised _ c => c

/-- The returned status, if the command returned at all. -/
def POutcome.retOf : POutcome → Option Int
  | .ok r _ => some r
  | .raised _ _ => none

/-- The one outbound HTTP POST a REST command performs. -/
structure Request where
  endpoint : String
  payload : JValue

/-- A REST command's result: outcome plus the request it sent
(`none` = no outbound network call was made). -/
structure CmdResult where
  out : POutcome
  req : Option Request

/-- The payload's `"messages"` field, when the payload is a dict. -/
def Request.messages (r : Request) : Option JValue :=
  match r.payload with
  | .obj kvs => List.lookup "messages" kvs
  | _ => none

/-- The usage text written by `ai_mistral_text` on empty `args`. -/
def textUsage : String :=
  "Usage: ai_mistral_text <prompt> [reasoning_effort]\n" ++
  "ai_mistral_text:\n" ++
  "    args:\n" ++
  "        - prompt\n" ++
  "        - reasoning_effort (optional) // High; defaults to None\n" ++
  "    context:\n" ++
  "        - MISTRAL_API_KEY: The API key for accessing the Mistral API.\n" ++
  "        - SYSTEM_PROMPT: The system prompt to be used in the API call.\n" ++
  "        - MISTRAL_MODEL: Optional custom model to use.\n" ++
  "        - MISTRAL_MESSAGES: Optional fully custom message list.\n" ++
  "        - MISTRAL_TEMPERATURE: Optional float (0.0â€“2.0) for sampling randomness.\n" ++
  "        - MISTRAL_K: Optional int for top-k sampling.\n"

/-- `messages.append(\x7b"role": "user", "content": prompt\x7d)`. -/
def userMsg (prompt : JValue) : JValue :=
  .obj [("role", .str "user"), ("content", prompt)]

/-- The chat-completion payload: `model`, `messages`,
`reasoning_effort`, plus `temperature` / `k` only when present in the
context. -/
def textPayload (ctx : Ctx) (model : JValue) (messages : List JValue)
    (reasoning_effort : JValue) : JValue :=
  .obj ([("model", model), ("messages", .arr messages),
         ("reasoning_effort", reasoning_effort)]
    ++ (match Ctx.get ctx "MISTRAL_TEMPERATURE" with
        | some t => [("temperature", t)]
        | none => [])
    ++ (match Ctx.get ctx "MISTRAL_K" with
        | some k => [("k", k)]
        | none => []))

/-- Lines 74-86 of `ai-mistral-text/command.py`: send the request,
check the status, then — with NO try around it — decode the body and
extract `decoded.get("choices", [\x7b\x7d])[0].get("message", \x7b\x7d).get("content", "")`.
Every shape failure there is an uncaught exception. -/
def textHttpPhase (set_name error_key : String) (ctx : Ctx) (req : Request)
    (http : HttpResult) : CmdResult :=
  match http with
  | .reqError e =>
      { out := .ok 1 (Ctx.set ctx error_key (.str ("Request error: " ++ e))),
        req := some req }
  | .response status text json =>
    if status ≠ 200 then
      { out := .ok 1 (Ctx.set ctx error_key
          (.str ("API returned HTTP " ++ toString status ++ ": " ++ text))),
        req := some req }
    else
      match json with
      | .error e => { out := .raised e ctx, req := some req }
      | .ok decoded =>
        match decoded with
        | .obj kvs =>
          match (List.lookup "choices" kvs).getD (.arr [.obj []]) with
          | .arr [] =>
              { out := .raised "IndexError: list index out of range" ctx,
                req := some req }
          | .arr (c :: _) =>
            match c with
            | .obj ckvs =>
              match (List.lookup "message" ckvs).getD (.obj []) with
              | .obj mkvs =>
                  { out := .ok 0 (Ctx.set ctx set_name
                      ((List.lookup "content" mkvs).getD (.str ""))),
                    req := some req }
              | _ =>
                  { out := .raised "AttributeError: no attribute get" ctx,
                    req := some req }
            | _ =>
                { out := .raised "AttributeError: no attribute get" ctx,
                  req := some req }
          | _ =>
              { out := .raised "TypeError: value is not subscriptable" ctx,
                req := some req }
        | _ =>
            { out := .raised "AttributeError: no attribute get" ctx,
              req := some req }

/-- `ai_mistral_text(args, context)` with the HTTP call abstracted as
the oracle `http`.  `messages = context["MISTRAL_MESSAGES"]` aliases the
stored list, so the later `messages.append(...)` mutates the context
entry in place; the embedding performs that context update at the
append.  A present non-list `MISTRAL_MESSAGES` value makes the append
raise `AttributeError`. -/
def ai_mistral_text (args : List JValue) (ctx : Ctx) (http : HttpResult) :
    CmdResult :=
  let set_name := setNameOf ctx
  let error_key := set_name ++ "_error"
  if args.isEmpty then
    { out := .ok 1 (Ctx.set ctx error_key (.str textUsage)), req := none }
  else
    let api_key := (Ctx.get ctx "MISTRAL_API_KEY").getD .null
    if !api_key.truthy then
      { out := .ok 1 (Ctx.set ctx error_key
          (.str "Error: MISTRAL_API_KEY is not set in context.")),
        req := none }
    else
      let prompt := args.headD .null
      let reasoning_effort := args.getD 1 .null
      let system_prompt := (Ctx.get ctx "SYSTEM_PROMPT").getD (.str "")
      let model := (Ctx.get ctx "MISTRAL_MODEL").getD (.str "mistral-large-latest")
      match Ctx.get ctx "MISTRAL_MESSAGES" with
      | some (.arr ms) =>
          let messages := ms ++ [userMsg prompt]
          let ctx1 := Ctx.set ctx "MISTRAL_MESSAGES" (.arr messages)
          textHttpPhase set_name error_key ctx1
            { endpoint := "https://api.mistral.ai/v1/chat/completions",
              payload := textPayload ctx model messages reasoning_effort }
            http
      | some _ =>
          { out := .raised "AttributeError: no attribute append" ctx,
            req := none }
      | none =>
          let base :=
            if system_prompt.truthy then
              [JValue.obj [("role", .str "system"), ("content", system_prompt)]]
            else []
          let messages := base ++ [userMsg prompt]
          textHttpPhase set_name error_key ctx
            { endpoint := "https://api.mistral.ai/v1/chat/completions",
              payload := textPayload ctx model messages reasoning_effort }
            http

/-- Python iteration (`for item in x`) over a JSON value: lists yield
their elements, strings their one-character strings, dicts their keys;
anything else raises `TypeError` (`none`). -/
def pyIter : JValue → Option (List JValue)
  | .arr xs => some xs
  | .str s => some (s.toList.map (fun c => .str (String.mk [c])))
  | .obj kvs => some (kvs.map (fun kv => .str kv.1))
  | _ => none

/-- `[item.get("embedding") for item in items]`:  each item must be a
dict (`.get` on anything else raises `AttributeError`, here `none`,
which the command's `try` catches); a dict without the key contributes
`None`. -/
def extractEmbeddings : List JValue → Option (List JValue)
  | [] => some []
  | .obj kvs :: rest =>
      (extractEmbeddings rest).map
        (fun t => ((List.lookup "embedding" kvs).getD .null) :: t)
  | _ :: _ => none

/-- `ai_mistral_embeddings(args, context)` with the HTTP call as the
oracle `http`.  The whole response-parsing block sits inside `try`, so
every decode/shape failure becomes a stored error and return `-1`. -/
def ai_mistral_embeddings (args : List JValue) (ctx : Ctx) (http : HttpResult) :
    CmdResult :=
  let set_name := setNameOf ctx
  let error_key := set_name ++ "_error"
  let parseErr := fun (e : String) =>
    { out := POutcome.ok (-1)
        (Ctx.set ctx error_key (.str ("Error parsing response: " ++ e))),
      req := some (embeddingsRequest args ctx) }
  match args with
  | [] =>
      { out := .ok (-1) (Ctx.set ctx error_key
          (.str "Usage: ai_mistral_embeddings <text>")), req := none }
  | arg0 :: _ =>
    if arg0.isNull then
      { out := .ok (-1) (Ctx.set ctx error_key
          (.str "Usage: ai_mistral_embeddings <text>")), req := none }
    else
      let api_key := (Ctx.get ctx "MISTRAL_API_KEY").getD .null
      if !api_key.truthy then
        { out := .ok (-1) (Ctx.set ctx error_key
            (.str "Error: MISTRAL_API_KEY not found in context.")), req := none }
      else
        let req := embeddingsRequest args ctx
        match http with
        | .reqError e =>
            { out := .ok (-1) (Ctx.set ctx error_key
                (.str ("Request error: " ++ e))), req := some req }
        | .response status text json =>
          if status ≠ 200 then
            { out := .ok (-1) (Ctx.set ctx error_key
                (.str ("API returned HTTP " ++ toString status ++ ": " ++ text))),
              req := some req }
          else
            match json with
            | .error e => parseErr e
            | .ok decoded =>
              match decoded with
              | .obj kvs =>
                match pyIter ((List.lookup "data" kvs).getD (.arr [])) with
                | none => parseErr "TypeError: object is not iterable"
                | some items =>
                  match extractEmbeddings items with
                  | none => parseErr "AttributeError: no attribute get"
                  | some embeddings =>
                    if embeddings.length == 1 && arg0.isStr then
                      { out := .ok 0 (Ctx.set ctx set_name
                          (embeddings.headD .null)), req := some req }
                    else
                      { out := .ok 0 (Ctx.set ctx set_name (.arr embeddings)),
                        req := some req }
              | _ => parseErr "AttributeError: no attribute get"
where
  /-- The embeddings payload and endpoint (required fields only). -/
  embeddingsRequest (args : List JValue) (ctx : Ctx) : Request :=
    { endpoint := "https://api.mistral.ai/v1/embeddings",
      payload := .obj [("model",
          (Ctx.get ctx "MISTRAL_MODEL").getD (.str "mistral-embed")),
        ("input", args.headD .null)] }

/-- The structured usage object `mistral_moderations` stores under
`f"..._usage"` on a missing/None argument. -/
def moderationUsage : JValue :=
  .obj [
    ("description", .str "Moderate text using Mistral Moderation API"),
    ("args", .arr [.str "input_text (required) - Text to moderate"]),
    ("context", .arr [
      .str "MISTRAL_API_KEY: The API key for accessing the Mistral API",
      .str "MISTRAL_MODERATION_MODEL: (optional) Model to use (default: mistral-moderation-latest)"]),
    ("example", .str "mistral_moderations([\"This is some text to moderate\"], context)")]

/-- `mistral_moderations(args, context)` with the HTTP call as the
oracle `http`.  On success the entire decoded JSON response is stored
verbatim; `response.json()` sits inside `try`. -/
def mistral_moderations (args : List JValue) (ctx : Ctx) (http : HttpResult) :
    CmdResult :=
  let set_name := setNameOf ctx
  let error_key := set_name ++ "_error"
  let usageReject : CmdResult :=
    { out := .ok (-1) (Ctx.set ctx (set_name ++ "_usage") moderationUsage),
      req := none }
  match args with
  | [] => usageReject
  | arg0 :: _ =>
    if arg0.isNull then usageReject
    else
      let api_key := (Ctx.get ctx "MISTRAL_API_KEY").getD .null
      if !api_key.truthy then
        { out := .ok (-1) (Ctx.set ctx error_key
            (.str "Error: MISTRAL_API_KEY is not set in context")), req := none }
      else
        let model := (Ctx.get ctx "MISTRAL_MODERATION_MODEL").getD
          (.str "mistral-moderation-latest")
        let req : Request :=
          { endpoint := "https://api.mistral.ai/v1/moderations",
            payload := .obj [("input", arg0), ("model", model)] }
        match http with
        | .reqError e =>
            { out := .ok (-1) (Ctx.set ctx error_key
                (.str ("Request failed: " ++ e))), req := some req }
        | .response status text json =>
          if status ≠ 200 then
            { out := .ok (-1) (Ctx.set ctx error_key
                (.str ("API returned HTTP " ++ toString status ++ ": " ++ text))),
              req := some req }
          else
            match json with
            | .error e =>
                { out := .ok (-1) (Ctx.set ctx error_key
                    (.str ("Error parsing response: " ++ e))), req := some req }
            | .ok decoded =>
                { out := .ok 0 (Ctx.set ctx set_name decoded), req := some req }

/-! ### Image generation (SDK-based, multi-step) -/

/-- One element of `response.outputs[-1].content`: a `ToolFileChunk`
(with its `file_id`) or any other chunk kind. -/
inductive Chunk where
  | toolFile (fileId : String)
  | other

/-- One entry of `response.outputs`. -/
structure ConvOutput where
  content : List Chunk

/-- Outcome of `client.beta.agents.create`. -/
inductive AgentResult where
  | err (msg : String)
  | ok (agentId : String)

/-- Outcome of `client.beta.conversations.start`. -/
inductive ConvResult where
  | err (msg : String)
  | ok (outputs : List ConvOutput)

/-- `os.path.join(a, b)` for a relative `b` (here `b` is always
`f"uuid_i.png"`, never absolute). -/
def ospathJoin (a b : String) : String :=
  if a == "" then b
  else if a.data.getLast? == some '/' then a ++ b
  else a ++ "/" ++ b

/-- The `for i, chunk in enumerate(...)` loop of lines 80-87: download
each `ToolFileChunk`, write non-empty bytes to
`os.path.join(output_dir, f"uuid_i.png")`, collect the path.  Returns
the files actually written (a raise mid-loop leaves earlier writes on
disk) together with the exception message that aborted the loop, if
any (caught by the surrounding `try`). -/
def saveLoop (outputDir uid : String)
    (download : String → Except String (List Nat)) :
    List Chunk → Nat → (List (String × List Nat) × Option String)
  | [], _ => ([], none)
  | .other :: rest, i => saveLoop outputDir uid download rest (i + 1)
  | .toolFile fid :: rest, i =>
    match download fid with
    | .error e => ([], some e)
    | .ok bytes =>
      if bytes.isEmpty then saveLoop outputDir uid download rest (i + 1)
      else
        let file_name := ospathJoin outputDir (uid ++ "_" ++ toString i ++ ".png")
        let (more, e) := saveLoop outputDir uid download rest (i + 1)
        ((file_name, bytes) :: more, e)

/-- Result of the image-generation command: outcome, the files written
to disk, and whether any outbound network call was attempted. -/
structure ImgResult where
  out : POutcome
  files : List (String × List Nat)
  networkCalled : Bool

/-- `ai_mistral_image_gen(args, context)` with the SDK calls abstracted:
`agent` is the agent-creation outcome, `conv` the conversation outcome,
`download` the per-file download oracle, `uid` the generated UUID
string.  A non-string `output_dir` makes `os.makedirs` raise
(uncaught). -/
def ai_mistral_image_gen (args : List JValue) (ctx : Ctx)
    (agent : AgentResult) (conv : ConvResult)
    (download : String → Except String (List Nat)) (uid : String) : ImgResult :=
  let set_name := setNameOf ctx
  let error_key := set_name ++ "_error"
  let usageReject : ImgResult :=
    { out := .ok 1 (Ctx.set ctx error_key
        (.str "Usage: ai_mistral_image_gen <prompt>\nMissing prompt in args[0]")),
      files := [], networkCalled := false }
  match args with
  | [] => usageReject
  | arg0 :: _ =>
    if !arg0.truthy then usageReject
    else
      let api_key := (Ctx.get ctx "MISTRAL_API_KEY").getD .null
      if !api_key.truthy then
        { out := .ok 1 (Ctx.set ctx error_key
            (.str "MISTRAL_API_KEY not set in context.")),
          files := [], networkCalled := false }
      else
        match (Ctx.get ctx "output_dir").getD (.str "output") with
        | .str output_dir =>
          match agent with
          | .err e =>
              { out := .ok 1 (Ctx.set ctx error_key
                  (.str ("Failed to create agent: " ++ e))),
                files := [], networkCalled := true }
          | .ok _ =>
            match conv with
            | .err e =>
                { out := .ok 1 (Ctx.set ctx error_key
                    (.str ("Conversation error: " ++ e))),
                  files := [], networkCalled := true }
            | .ok outputs =>
              match outputs.getLast? with
              | none =>
                  { out := .ok 1 (Ctx.set ctx error_key
                      (.str "Error saving images: list index out of range")),
                    files := [], networkCalled := true }
              | some lastOut =>
                match saveLoop output_dir uid download lastOut.content 0 with
                | (saved, some e) =>
                    { out := .ok 1 (Ctx.set ctx error_key
                        (.str ("Error saving images: " ++ e))),
                      files := saved, networkCalled := true }
                | (saved, none) =>
                  match saved with
                  | [] =>
                      { out := .ok 1 (Ctx.set ctx error_key
                          (.str "No images were generated.")),
                        files := [], networkCalled := true }
                  | (p, b) :: more =>
                      { out := .ok 0
                          (Ctx.set
                            (Ctx.set ctx set_name (.str p))
                            (set_name ++ "_all")
                            (.arr (((p, b) :: more).map (fun f => .str f.1)))),
                        files := (p, b) :: more, networkCalled := true }
        | _ =>
            { out := .raised "TypeError: output_dir is not a string" ctx,
              files := [], networkCalled := false }

/-! ### Basic lemmas about the context and key strings -/

theorem Ctx.get_set_self (c : Ctx) (k : String) (v : JValue) :
    (Ctx.set c k v).get k = some v := by
  simp [Ctx.get, Ctx.set, List.lookup]

theorem Ctx.get_set_ne (c : Ctx) (k k2 : String) (v : JValue) (h : k2 ≠ k) :
    (Ctx.set c k v).get k2 = c.get k2 := by
  simp [Ctx.get, Ctx.set, List.lookup, beq_false_of_ne h]

/-- A string never equals itself with a non-empty suffix appended. -/
theorem self_ne_append (s t : String) (h : t.length ≠ 0) : s ≠ s ++ t := by
  intro h2
  have h3 : s.length = (s ++ t).length := by rw [← h2]
  rw [String.length_append] at h3
  omega

/-- Appending distinct suffixes to the same string gives distinct strings. -/
theorem append_ne_append (s t u : String) (h : t ≠ u) : s ++ t ≠ s ++ u := by
  intro h2
  apply h
  have h3 := congrArg String.data h2
  simp only [String.data_append] at h3
  exact String.ext (List.append_cancel_left h3)

/-- `s ++ t` cannot equal a string that does not end in `t`. -/
theorem append_ne_of_not_suffix (s t u : String) (h : ¬ t.data <:+ u.data) :
    s ++ t ≠ u := by
  intro h2
  apply h
  refine ⟨s.data, ?_⟩
  have h3 := congrArg String.data h2
  simpa [String.data_append] using h3

/-! ### Claim C1 -/

/-- C1 states that none of the four commands ever lets an external-call
or decode failure escape as an uncaught exception.  The text command,
however, decodes the 200 response outside any `try` (lines 84-85 of
`ai-mistral-text/command.py`): a non-JSON body makes `response.json()`
raise uncaught, and a decoded body with `choices = []` raises
`IndexError` uncaught.  This theorem exhibits both raises. -/
theorem C1_text_uncaught_decode :
    (ai_mistral_text [.str "Hello"] [("MISTRAL_API_KEY", .str "k")]
        (.response 200 "not json" (.error "Expecting value"))).out
      = .raised "Expecting value" [("MISTRAL_API_KEY", .str "k")]
  ∧ (ai_mistral_text [.str "Hello"] [("MISTRAL_API_KEY", .str "k")]
        (.response 200 "resp" (.ok (.obj [("choices", .arr [])])))).out
      = .raised "IndexError: list index out of range"
          [("MISTRAL_API_KEY", .str "k")] :=
  ⟨rfl, rfl⟩

/-! ### Claim C2 -/

/-- C2 as stated fails on the moderation command: on empty `args` it
stores a structured usage dict under `prev_usage` and writes nothing
under `prev_error` (no string under the error key at all). -/
theorem C2_moderation_counterexample :
    (mistral_moderations [] [] (.reqError "")).out
      = .ok (-1) [("prev_usage", moderationUsage)]
  ∧ Ctx.get ((mistral_moderations [] [] (.reqError "")).out.ctxOf) "prev_error"
      = none :=
  ⟨rfl, rfl⟩

/-- C2 (amended): on an empty argument list, the text, embeddings and
image commands return a failure status, write a non-empty usage string
under `set_name ++ "_error"`, and leave `set_name` untouched; the
moderation command returns `-1`, stores the structured usage object
under `set_name ++ "_usage"`, and leaves both `set_name` and the error
key untouched. -/
theorem C2_empty_args_amended (ctx : Ctx) (http : HttpResult)
    (agent : AgentResult) (conv : ConvResult)
    (download : String → Except String (List Nat)) (uid : String) :
    ((ai_mistral_text [] ctx http).out.retOf = some 1
      ∧ Ctx.get ((ai_mistral_text [] ctx http).out.ctxOf)
            (setNameOf ctx ++ "_error") = some (.str textUsage)
      ∧ textUsage ≠ ""
      ∧ Ctx.get ((ai_mistral_text [] ctx http).out.ctxOf) (setNameOf ctx)
          = Ctx.get ctx (setNameOf ctx))
  ∧ ((ai_mistral_embeddings [] ctx http).out.retOf = some (-1)
      ∧ Ctx.get ((ai_mistral_embeddings [] ctx http).out.ctxOf)
            (setNameOf ctx ++ "_error")
          = some (.str "Usage: ai_mistral_embeddings <text>")
      ∧ ("Usage: ai_mistral_embeddings <text>" : String) ≠ ""
      ∧ Ctx.get ((ai_mistral_embeddings [] ctx http).out.ctxOf) (setNameOf ctx)
          = Ctx.get ctx (setNameOf ctx))
  ∧ ((ai_mistral_image_gen [] ctx agent conv download uid).out.retOf = some 1
      ∧ Ctx.get ((ai_mistral_image_gen [] ctx agent conv download uid).out.ctxOf)
            (setNameOf ctx ++ "_error")
          = some (.str "Usage: ai_mistral_image_gen <prompt>\nMissing prompt in args[0]")
      ∧ ("Usage: ai_mistral_image_gen <prompt>\nMissing prompt in args[0]" : String) ≠ ""
      ∧ Ctx.get ((ai_mistral_image_gen [] ctx agent conv download uid).out.ctxOf)
            (setNameOf ctx)
          = Ctx.get ctx (setNameOf ctx))
  ∧ ((mistral_moderations [] ctx http).out.retOf = some (-1)
      ∧ Ctx.get ((mistral_moderations [] ctx http).out.ctxOf)
            (setNameOf ctx ++ "_usage") = some moderationUsage
      ∧ Ctx.get ((mistral_moderations [] ctx http).out.ctxOf) (setNameOf ctx)
          = Ctx.get ctx (setNameOf ctx)
      ∧ Ctx.get ((mistral_moderations [] ctx http).out.ctxOf)
            (setNameOf ctx ++ "_error")
          = Ctx.get ctx (setNameOf ctx ++ "_error")) := by
  refine ⟨⟨rfl, ?_, by decide, ?_⟩, ⟨rfl, ?_, by decide, ?_⟩,
          ⟨rfl, ?_, by decide, ?_⟩, ⟨rfl, ?_, ?_, ?_⟩⟩
  · exact Ctx.get_set_self ctx _ _
  · exact Ctx.get_set_ne ctx _ _ _ (self_ne_append _ "_error" (by decide))
  · exact Ctx.get_set_self ctx _ _
  · exact Ctx.get_set_ne ctx _ _ _ (self_ne_append _ "_error" (by decide))
  · exact Ctx.get_set_self ctx _ _
  · exact Ctx.get_set_ne ctx _ _ _ (self_ne_append _ "_error" (by decide))
  · exact Ctx.get_set_self ctx _ _
  · exact Ctx.get_set_ne ctx _ _ _ (self_ne_append _ "_usage" (by decide))
  · exact Ctx.get_set_ne ctx _ _ _ (append_ne_append _ _ _ (by decide))

/-- Witness for `C2_empty_args_amended` at the empty context. -/
theorem C2_empty_args_amended_witness :
    (ai_mistral_text [] [] (.reqError "")).out.retOf = some 1
    ∧ Ctx.get ((mistral_moderations [] [] (.reqError "")).out.ctxOf) "prev_usage"
        = some moderationUsage := by
  have h := C2_empty_args_amended [] (.reqError "") (.err "") (.err "")
    (fun _ => .ok []) "u"
  exact ⟨h.1.1, h.2.2.2.2.1⟩

/-! ### Claim C3 -/

/-- A string that contains `MISTRAL_API_KEY` as a substring. -/
def mentionsAPIKey (m : String) : Prop :=
  ∃ pre post, m = pre ++ "MISTRAL_API_KEY" ++ post

/-- C3: with a missing or falsy `MISTRAL_API_KEY`, each of the four
commands — on every input that passes its own argument validation —
returns its failure status, stores an error message mentioning
`MISTRAL_API_KEY` under the error key, and makes no outbound network
call.  The validation conditions are exactly the per-command checks of
the sources: the text command only requires `args` non-empty (any
`args[0]`, including `None` or `""`), the embeddings and moderation
commands additionally require `args[0] is not None`, and the image
command requires a truthy `args[0]`. -/
theorem C3_missing_key (a0 : JValue) (rest : List JValue) (ctx : Ctx)
    (http : HttpResult) (agent : AgentResult) (conv : ConvResult)
    (download : String → Except String (List Nat)) (uid : String)
    (hkey : ((Ctx.get ctx "MISTRAL_API_KEY").getD .null).truthy = false) :
    ((ai_mistral_text (a0 :: rest) ctx http).out.retOf = some 1
      ∧ (∃ m, Ctx.get ((ai_mistral_text (a0 :: rest) ctx http).out.ctxOf)
            (setNameOf ctx ++ "_error") = some (.str m) ∧ mentionsAPIKey m)
      ∧ (ai_mistral_text (a0 :: rest) ctx http).req = none)
  ∧ (a0.isNull = false →
      (ai_mistral_embeddings (a0 :: rest) ctx http).out.retOf = some (-1)
      ∧ (∃ m, Ctx.get ((ai_mistral_embeddings (a0 :: rest) ctx http).out.ctxOf)
            (setNameOf ctx ++ "_error") = some (.str m) ∧ mentionsAPIKey m)
      ∧ (ai_mistral_embeddings (a0 :: rest) ctx http).req = none)
  ∧ (a0.isNull = false →
      (mistral_moderations (a0 :: rest) ctx http).out.retOf = some (-1)
      ∧ (∃ m, Ctx.get ((mistral_moderations (a0 :: rest) ctx http).out.ctxOf)
            (setNameOf ctx ++ "_error") = some (.str m) ∧ mentionsAPIKey m)
      ∧ (mistral_moderations (a0 :: rest) ctx http).req = none)
  ∧ (a0.truthy = true →
      (ai_mistral_image_gen (a0 :: rest) ctx agent conv download uid).out.retOf
        = some 1
      ∧ (∃ m, Ctx.get
            ((ai_mistral_image_gen (a0 :: rest) ctx agent conv download uid).out.ctxOf)
            (setNameOf ctx ++ "_error") = some (.str m) ∧ mentionsAPIKey m)
      ∧ (ai_mistral_image_gen (a0 :: rest) ctx agent conv download uid).networkCalled
          = false) := by
  have hm1 : mentionsAPIKey "Error: MISTRAL_API_KEY is not set in context." :=
    ⟨"Error: ", " is not set in context.", by decide⟩
  have hm2 : mentionsAPIKey "Error: MISTRAL_API_KEY not found in context." :=
    ⟨"Error: ", " not found in context.", by decide⟩
  have hm3 : mentionsAPIKey "Error: MISTRAL_API_KEY is not set in context" :=
    ⟨"Error: ", " is not set in context", by decide⟩
  have hm4 : mentionsAPIKey "MISTRAL_API_KEY not set in context." :=
    ⟨"", " not set in context.", by decide⟩
  refine ⟨?_, fun hnn => ?_, fun hnn => ?_, fun htr => ?_⟩
  · have htext : ai_mistral_text (a0 :: rest) ctx http =
        { out := .ok 1 (Ctx.set ctx (setNameOf ctx ++ "_error")
            (.str "Error: MISTRAL_API_KEY is not set in context.")), req := none } := by
      simp [ai_mistral_text, hkey]
    rw [htext]
    exact ⟨rfl, ⟨_, Ctx.get_set_self ctx _ _, hm1⟩, rfl⟩
  · have hemb : ai_mistral_embeddings (a0 :: rest) ctx http =
        { out := .ok (-1) (Ctx.set ctx (setNameOf ctx ++ "_error")
            (.str "Error: MISTRAL_API_KEY not found in context.")), req := none } := by
      simp [ai_mistral_embeddings, hkey, hnn]
    rw [hemb]
    exact ⟨rfl, ⟨_, Ctx.get_set_self ctx _ _, hm2⟩, rfl⟩
  · have hmod : mistral_moderations (a0 :: rest) ctx http =
        { out := .ok (-1) (Ctx.set ctx (setNameOf ctx ++ "_error")
            (.str "Error: MISTRAL_API_KEY is not set in context")), req := none } := by
      simp [mistral_moderations, hkey, hnn]
    rw [hmod]
    exact ⟨rfl, ⟨_, Ctx.get_set_self ctx _ _, hm3⟩, rfl⟩
  · have himg : ai_mistral_image_gen (a0 :: rest) ctx agent conv download uid =
        { out := .ok 1 (Ctx.set ctx (setNameOf ctx ++ "_error")
            (.str "MISTRAL_API_KEY not set in context.")),
          files := [], networkCalled := false } := by
      simp [ai_mistral_image_gen, hkey, htr]
    rw [himg]
    exact ⟨rfl, ⟨_, Ctx.get_set_self ctx _ _, hm4⟩, rfl⟩

/-- Witness for `C3_missing_key`: the text command at `args = [None]`
(which passes its validation) and empty context still fails with status
1 and no request; the embeddings command at `args = [""]` and the image
command at a truthy argument likewise make no call. -/
theorem C3_missing_key_witness :
    (ai_mistral_text [JValue.null] [] (.reqError "")).out.retOf = some 1
    ∧ (ai_mistral_text [JValue.null] [] (.reqError "")).req = none
    ∧ (ai_mistral_embeddings [JValue.str ""] [] (.reqError "")).req = none
    ∧ (ai_mistral_image_gen [JValue.str "x"] [] (.err "") (.err "")
        (fun _ => .ok []) "u").networkCalled = false := by
  have h := C3_missing_key JValue.null [] [] (.reqError "") (.err "") (.err "")
    (fun _ => .ok []) "u" rfl
  have h2 := C3_missing_key (JValue.str "") [] [] (.reqError "") (.err "") (.err "")
    (fun _ => .ok []) "u" rfl
  have h3 := C3_missing_key (JValue.str "x") [] [] (.reqError "") (.err "") (.err "")
    (fun _ => .ok []) "u" rfl
  exact ⟨h.1.1, h.1.2.2, (h2.2.1 rfl).2.2, (h3.2.2.2 rfl).2.2⟩

/-! ### Claim C4 -/

/-- Extracting `embedding` from a data array of well-formed items yields
exactly the list of vectors. -/
theorem extractEmbeddings_map (vecs : List JValue) :
    extractEmbeddings (vecs.map (fun v => .obj [("embedding", v)])) = some vecs := by
  induction vecs with
  | nil => rfl
  | cons v rest ih => simp [extractEmbeddings, ih, List.lookup]

/-- C4: for the embeddings command with a string argument and a 200
response whose `data` array holds exactly one embedding, the stored
result is the bare vector; with `N > 1` embeddings it is the list of all
`N` vectors; both return 0. -/
theorem C4_embeddings_unwrap (s : String) (rest : List JValue) (ctx : Ctx)
    (txt : String) (kvs2 : List (String × JValue)) (vecs : List JValue)
    (hkey : ((Ctx.get ctx "MISTRAL_API_KEY").getD .null).truthy = true) :
    (∀ v, vecs = [v] →
      (ai_mistral_embeddings (.str s :: rest) ctx
          (.response 200 txt (.ok (.obj (("data",
            .arr (vecs.map (fun v2 => .obj [("embedding", v2)]))) :: kvs2))))).out
        = .ok 0 (Ctx.set ctx (setNameOf ctx) v))
  ∧ (1 < vecs.length →
      (ai_mistral_embeddings (.str s :: rest) ctx
          (.response 200 txt (.ok (.obj (("data",
            .arr (vecs.map (fun v2 => .obj [("embedding", v2)]))) :: kvs2))))).out
        = .ok 0 (Ctx.set ctx (setNameOf ctx) (.arr vecs))) := by
  constructor
  · rintro v rfl
    simp [ai_mistral_embeddings, hkey, extractEmbeddings, pyIter,
      JValue.isNull, JValue.isStr, List.lookup]
  · intro hlen
    have hne : (vecs.length == 1) = false := by
      rw [beq_eq_false_iff_ne]; omega
    simp [ai_mistral_embeddings, hkey, extractEmbeddings_map, pyIter,
      JValue.isNull, JValue.isStr, List.lookup, hne]

/-- Witness for `C4_embeddings_unwrap`: the spec scenario
`args=["cat"]`, one embedding `[0.1, 0.2]` stored bare; and a two-vector
response stored as the full list. -/
theorem C4_embeddings_unwrap_witness :
    (ai_mistral_embeddings [.str "cat"] [("MISTRAL_API_KEY", .str "k")]
        (.response 200 "" (.ok (.obj [("data",
          .arr [.obj [("embedding", .arr [.num (1/10), .num (2/10)])]])])))).out
      = .ok 0 [("prev", .arr [.num (1/10), .num (2/10)]),
               ("MISTRAL_API_KEY", .str "k")]
  ∧ (ai_mistral_embeddings [.str "cat"] [("MISTRAL_API_KEY", .str "k")]
        (.response 200 "" (.ok (.obj [("data", .arr
          [.obj [("embedding", .num 1)], .obj [("embedding", .num 2)]])])))).out
      = .ok 0 [("prev", .arr [.num 1, .num 2]),
               ("MISTRAL_API_KEY", .str "k")] := by
  have h := C4_embeddings_unwrap "cat" [] [("MISTRAL_API_KEY", .str "k")] "" []
    [JValue.arr [.num (1/10), .num (2/10)]] rfl
  have h2 := C4_embeddings_unwrap "cat" [] [("MISTRAL_API_KEY", .str "k")] "" []
    [JValue.num 1, JValue.num 2] rfl
  exact ⟨h.1 _ rfl, h2.2 (by decide)⟩

/-! ### Claim C5 -/

/-- `textHttpPhase` always records the request it was given: all four
HTTP outcomes report `req` as the sent request. -/
theorem textHttpPhase_req (sn ek : String) (c : Ctx) (req : Request)
    (http : HttpResult) : (textHttpPhase sn ek c req http).req = some req := by
  unfold textHttpPhase
  repeat' split <;> try rfl

/-- With `MISTRAL_MESSAGES` holding a list `ms`, the sent request's
message list is `ms` with the user message appended. -/
theorem text_req_messages_of_list (a0 : JValue) (rest : List JValue) (ctx : Ctx)
    (ms : List JValue) (http : HttpResult)
    (hkey : ((Ctx.get ctx "MISTRAL_API_KEY").getD .null).truthy = true)
    (hm : Ctx.get ctx "MISTRAL_MESSAGES" = some (.arr ms)) :
    ∃ r, (ai_mistral_text (a0 :: rest) ctx http).req = some r
      ∧ r.messages = some (.arr (ms ++ [userMsg a0])) := by
  refine ⟨{ endpoint := "https://api.mistral.ai/v1/chat/completions",
            payload := textPayload ctx
              ((Ctx.get ctx "MISTRAL_MODEL").getD (.str "mistral-large-latest"))
              (ms ++ [userMsg a0]) ((a0 :: rest).getD 1 .null) }, ?_, ?_⟩
  · have hreq : ai_mistral_text (a0 :: rest) ctx http
        = textHttpPhase (setNameOf ctx) (setNameOf ctx ++ "_error")
            (Ctx.set ctx "MISTRAL_MESSAGES" (.arr (ms ++ [userMsg a0])))
            { endpoint := "https://api.mistral.ai/v1/chat/completions",
              payload := textPayload ctx
                ((Ctx.get ctx "MISTRAL_MODEL").getD (.str "mistral-large-latest"))
                (ms ++ [userMsg a0]) ((a0 :: rest).getD 1 .null) }
            http := by
      simp [ai_mistral_text, hkey, hm]
    rw [hreq, textHttpPhase_req]
  · simp [Request.messages, textPayload, List.lookup]

/-- With `MISTRAL_MESSAGES` absent, the sent request's message list is
the system-prompt-derived base with the user message appended. -/
theorem text_req_messages_of_none (a0 : JValue) (rest : List JValue) (ctx : Ctx)
    (http : HttpResult)
    (hkey : ((Ctx.get ctx "MISTRAL_API_KEY").getD .null).truthy = true)
    (hm : Ctx.get ctx "MISTRAL_MESSAGES" = none) :
    ∃ r base, (ai_mistral_text (a0 :: rest) ctx http).req = some r
      ∧ r.messages = some (.arr (base ++ [userMsg a0])) := by
  refine ⟨{ endpoint := "https://api.mistral.ai/v1/chat/completions",
            payload := textPayload ctx
              ((Ctx.get ctx "MISTRAL_MODEL").getD (.str "mistral-large-latest"))
              ((if ((Ctx.get ctx "SYSTEM_PROMPT").getD (.str "")).truthy then
                  [JValue.obj [("role", .str "system"),
                    ("content", (Ctx.get ctx "SYSTEM_PROMPT").getD (.str ""))]]
                else []) ++ [userMsg a0]) ((a0 :: rest).getD 1 .null) },
          (if ((Ctx.get ctx "SYSTEM_PROMPT").getD (.str "")).truthy then
             [JValue.obj [("role", .str "system"),
               ("content", (Ctx.get ctx "SYSTEM_PROMPT").getD (.str ""))]]
           else []), ?_, ?_⟩
  · have hreq : ai_mistral_text (a0 :: rest) ctx http
        = textHttpPhase (setNameOf ctx) (setNameOf ctx ++ "_error") ctx
            { endpoint := "https://api.mistral.ai/v1/chat/completions",
              payload := textPayload ctx
                ((Ctx.get ctx "MISTRAL_MODEL").getD (.str "mistral-large-latest"))
                ((if ((Ctx.get ctx "SYSTEM_PROMPT").getD (.str "")).truthy then
                    [JValue.obj [("role", .str "system"),
                      ("content", (Ctx.get ctx "SYSTEM_PROMPT").getD (.str ""))]]
                  else []) ++ [userMsg a0]) ((a0 :: rest).getD 1 .null) }
            http := by
      simp [ai_mistral_text, hkey, hm]
    rw [hreq, textHttpPhase_req]
  · simp [Request.messages, textPayload, List.lookup]

/-- C5: when `MISTRAL_MESSAGES` holds a list `ms`, the request's message
list is exactly `ms` with one user message containing `args[0]`
appended.  The context is universally quantified, so in particular
`SYSTEM_PROMPT` has no effect on the constructed message list. -/
theorem C5_messages_verbatim (a0 : JValue) (rest : List JValue) (ctx : Ctx)
    (ms : List JValue) (http : HttpResult)
    (hkey : ((Ctx.get ctx "MISTRAL_API_KEY").getD .null).truthy = true)
    (hm : Ctx.get ctx "MISTRAL_MESSAGES" = some (.arr ms)) :
    ∃ r, (ai_mistral_text (a0 :: rest) ctx http).req = some r
      ∧ r.messages = some (.arr (ms ++ [userMsg a0])) :=
  text_req_messages_of_list a0 rest ctx ms http hkey hm

/-- Witness for `C5_messages_verbatim`: concrete context with a
pre-built message list and a `SYSTEM_PROMPT` that is indeed ignored. -/
theorem C5_messages_verbatim_witness :
    ∃ r, (ai_mistral_text [JValue.str "Hello"]
        [("MISTRAL_API_KEY", .str "k"),
         ("MISTRAL_MESSAGES", .arr [.obj [("role", .str "system"), ("content", .str "base")]]),
         ("SYSTEM_PROMPT", .str "ignored")]
        (.reqError "down")).req = some r
      ∧ r.messages = some (.arr
          [.obj [("role", .str "system"), ("content", .str "base")],
           userMsg (.str "Hello")]) :=
  C5_messages_verbatim (.str "Hello") []
    [("MISTRAL_API_KEY", .str "k"),
     ("MISTRAL_MESSAGES", .arr [.obj [("role", .str "system"), ("content", .str "base")]]),
     ("SYSTEM_PROMPT", .str "ignored")]
    [.obj [("role", .str "system"), ("content", .str "base")]]
    (.reqError "down") rfl rfl

/-! ### Claim C6 -/

/-- A content stream with no `ToolFileChunk` saves nothing and raises
nothing. -/
theorem saveLoop_no_files (od uid : String)
    (download : String → Except String (List Nat)) (cs : List Chunk)
    (h : ∀ c ∈ cs, c = Chunk.other) (i : Nat) :
    saveLoop od uid download cs i = ([], none) := by
  induction cs generalizing i with
  | nil => rfl
  | cons c rest ih =>
    have hc := h c (by simp)
    subst hc
    simpa [saveLoop] using ih (fun c2 hc2 => h c2 (by simp [hc2])) (i + 1)

/-- C6: when the remote conversation succeeds, on success (at least one
file saved, no save error) `set_name` holds the first saved path and
`set_name ++ "_all"` all saved paths in encounter order; when the last
output contains no file chunk at all, the command fails with
"No images were generated." even though the conversation succeeded. -/
theorem C6_image_paths (a0 : JValue) (rest : List JValue) (ctx : Ctx)
    (aid : String) (outs : List ConvOutput) (lastOut : ConvOutput)
    (download : String → Except String (List Nat)) (uid od : String)
    (htr : a0.truthy = true)
    (hkey : ((Ctx.get ctx "MISTRAL_API_KEY").getD .null).truthy = true)
    (hod : (Ctx.get ctx "output_dir").getD (.str "output") = .str od) :
    (∀ p b more,
      saveLoop od uid download lastOut.content 0 = ((p, b) :: more, none) →
      (ai_mistral_image_gen (a0 :: rest) ctx (.ok aid)
          (.ok (outs ++ [lastOut])) download uid).out.retOf = some 0
      ∧ Ctx.get ((ai_mistral_image_gen (a0 :: rest) ctx (.ok aid)
            (.ok (outs ++ [lastOut])) download uid).out.ctxOf) (setNameOf ctx)
          = some (.str p)
      ∧ Ctx.get ((ai_mistral_image_gen (a0 :: rest) ctx (.ok aid)
            (.ok (outs ++ [lastOut])) download uid).out.ctxOf)
            (setNameOf ctx ++ "_all")
          = some (.arr (((p, b) :: more).map (fun f => .str f.1)))
      ∧ (ai_mistral_image_gen (a0 :: rest) ctx (.ok aid)
            (.ok (outs ++ [lastOut])) download uid).files = (p, b) :: more)
  ∧ ((∀ c ∈ lastOut.content, c = Chunk.other) →
      (ai_mistral_image_gen (a0 :: rest) ctx (.ok aid)
          (.ok (outs ++ [lastOut])) download uid).out.retOf = some 1
      ∧ Ctx.get ((ai_mistral_image_gen (a0 :: rest) ctx (.ok aid)
            (.ok (outs ++ [lastOut])) download uid).out.ctxOf)
            (setNameOf ctx ++ "_error")
          = some (.str "No images were generated.")) := by
  constructor
  · intro p b more hsave
    have hrun : ai_mistral_image_gen (a0 :: rest) ctx (.ok aid)
          (.ok (outs ++ [lastOut])) download uid
        = { out := .ok 0 (Ctx.set (Ctx.set ctx (setNameOf ctx) (.str p))
              (setNameOf ctx ++ "_all")
              (.arr (((p, b) :: more).map (fun f => .str f.1)))),
            files := (p, b) :: more, networkCalled := true } := by
      simp [ai_mistral_image_gen, htr, hkey, hod, hsave, List.getLast?_concat]
    rw [hrun]
    dsimp only [POutcome.ctxOf, POutcome.retOf]
    refine ⟨rfl, ?_, ?_, rfl⟩
    · rw [Ctx.get_set_ne _ _ _ _ (self_ne_append _ "_all" (by decide))]
      exact Ctx.get_set_self _ _ _
    · exact Ctx.get_set_self _ _ _
  · intro hall
    have hsl := saveLoop_no_files od uid download lastOut.content hall 0
    have hrun : ai_mistral_image_gen (a0 :: rest) ctx (.ok aid)
          (.ok (outs ++ [lastOut])) download uid
        = { out := .ok 1 (Ctx.set ctx (setNameOf ctx ++ "_error")
              (.str "No images were generated.")),
            files := [], networkCalled := true } := by
      simp [ai_mistral_image_gen, htr, hkey, hod, hsl, List.getLast?_concat]
    rw [hrun]
    exact ⟨rfl, Ctx.get_set_self ctx _ _⟩

/-- Witness for `C6_image_paths`: one `other` chunk followed by two file
chunks saves `output/uid_1.png` and `output/uid_2.png`; an all-`other`
content stream fails with "No images were generated.". -/
theorem C6_image_paths_witness :
    ((ai_mistral_image_gen [.str "a cat"] [("MISTRAL_API_KEY", .str "k")]
        (.ok "a1") (.ok [⟨[Chunk.other, Chunk.toolFile "f1", Chunk.toolFile "f2"]⟩])
        (fun _ => .ok [7]) "uid").out.retOf = some 0
      ∧ Ctx.get ((ai_mistral_image_gen [.str "a cat"] [("MISTRAL_API_KEY", .str "k")]
          (.ok "a1") (.ok [⟨[Chunk.other, Chunk.toolFile "f1", Chunk.toolFile "f2"]⟩])
          (fun _ => .ok [7]) "uid").out.ctxOf) "prev"
        = some (.str "output/uid_1.png"))
  ∧ ((ai_mistral_image_gen [.str "a cat"] [("MISTRAL_API_KEY", .str "k")]
        (.ok "a1") (.ok [⟨[Chunk.other]⟩]) (fun _ => .ok [7]) "uid").out.retOf
        = some 1) := by
  have h1 := C6_image_paths (.str "a cat") [] [("MISTRAL_API_KEY", .str "k")]
    "a1" [] ⟨[Chunk.other, Chunk.toolFile "f1", Chunk.toolFile "f2"]⟩
    (fun _ => .ok [7]) "uid" "output" rfl rfl rfl
  have h2 := C6_image_paths (.str "a cat") [] [("MISTRAL_API_KEY", .str "k")]
    "a1" [] ⟨[Chunk.other]⟩ (fun _ => .ok [7]) "uid" "output" rfl rfl rfl
  have ha := h1.1 "output/uid_1.png" [7] [("output/uid_2.png", [7])] rfl
  have hb := h2.2 (fun c hc => List.mem_singleton.mp hc)
  exact ⟨⟨ha.1, ha.2.1⟩, hb.1⟩

/-! ### Claim C7 -/

/-- Every returned status of the text command is 0 or 1. -/
theorem ai_mistral_text_status (args : List JValue) (ctx : Ctx)
    (http : HttpResult) (r : Int) (c : Ctx)
    (h : (ai_mistral_text args ctx http).out = .ok r c) : r = 0 ∨ r = 1 := by
  simp only [ai_mistral_text, textHttpPhase] at h
  repeat' split at h
  all_goals simp_all

/-- Every returned status of the embeddings command is 0 or -1. -/
theorem ai_mistral_embeddings_status (args : List JValue) (ctx : Ctx)
    (http : HttpResult) (r : Int) (c : Ctx)
    (h : (ai_mistral_embeddings args ctx http).out = .ok r c) :
    r = 0 ∨ r = -1 := by
  simp only [ai_mistral_embeddings] at h
  repeat' split at h
  all_goals simp_all

/-- Every returned status of the moderation command is 0 or -1. -/
theorem mistral_moderations_status (args : List JValue) (ctx : Ctx)
    (http : HttpResult) (r : Int) (c : Ctx)
    (h : (mistral_moderations args ctx http).out = .ok r c) :
    r = 0 ∨ r = -1 := by
  simp only [mistral_moderations] at h
  repeat' split at h
  all_goals simp_all

/-- Every returned status of the image-generation command is 0 or 1. -/
theorem ai_mistral_image_gen_status (args : List JValue) (ctx : Ctx)
    (agent : AgentResult) (conv : ConvResult)
    (download : String → Except String (List Nat)) (uid : String)
    (r : Int) (c : Ctx)
    (h : (ai_mistral_image_gen args ctx agent conv download uid).out = .ok r c) :
    r = 0 ∨ r = 1 := by
  simp only [ai_mistral_image_gen] at h
  repeat' split at h
  all_goals simp_all

/-- C7: the moderation scenario `args=[None]` populates `prev_usage`
with the structured usage object and returns -1; in general every
failure status is -1 for the embeddings and moderation commands and 1
for the text and image commands (0 being success in all four). -/
theorem C7_failure_codes :
    (Ctx.get ((mistral_moderations [.null] [] (.reqError "")).out.ctxOf)
        "prev_usage" = some moderationUsage
      ∧ (mistral_moderations [.null] [] (.reqError "")).out.retOf = some (-1))
  ∧ (∀ args ctx http r c,
      (ai_mistral_text args ctx http).out = .ok r c → r = 0 ∨ r = 1)
  ∧ (∀ args ctx http r c,
      (ai_mistral_embeddings args ctx http).out = .ok r c → r = 0 ∨ r = -1)
  ∧ (∀ args ctx http r c,
      (mistral_moderations args ctx http).out = .ok r c → r = 0 ∨ r = -1)
  ∧ (∀ args ctx agent conv download uid r c,
      (ai_mistral_image_gen args ctx agent conv download uid).out = .ok r c →
        r = 0 ∨ r = 1) :=
  ⟨⟨rfl, rfl⟩,
   fun args ctx http r c h => ai_mistral_text_status args ctx http r c h,
   fun args ctx http r c h => ai_mistral_embeddings_status args ctx http r c h,
   fun args ctx http r c h => mistral_moderations_status args ctx http r c h,
   fun args ctx agent conv download uid r c h =>
     ai_mistral_image_gen_status args ctx agent conv download uid r c h⟩

/-- Witness for `C7_failure_codes`: a concrete failing text run returns
1, and 1 is among the statuses the theorem allows. -/
theorem C7_failure_codes_witness :
    (ai_mistral_text [JValue.str "x"] [("MISTRAL_API_KEY", JValue.str "k")]
        (.reqError "down")).out
      = .ok 1 [("prev_error", .str "Request error: down"),
               ("MISTRAL_API_KEY", .str "k")]
    ∧ ((1 : Int) = 0 ∨ (1 : Int) = 1) :=
  ⟨rfl, C7_failure_codes.2.1 [JValue.str "x"]
    [("MISTRAL_API_KEY", JValue.str "k")] (.reqError "down") 1
    [("prev_error", .str "Request error: down"), ("MISTRAL_API_KEY", .str "k")]
    rfl⟩

/-! ### Claim C8 -/

/-- C8 as stated fails for the adversarial context in which
`set_context` itself resolves to `"MISTRAL_MESSAGES"`: on a successful
200 response the success write overwrites the appended message list, so
after the call the entry holds the response content, not the list with
one user message appended. -/
theorem C8_inplace_counterexample :
    Ctx.get ((ai_mistral_text [.str "hi"]
        [("set_context", .str "MISTRAL_MESSAGES"),
         ("MISTRAL_API_KEY", .str "k"), ("MISTRAL_MESSAGES", .arr [])]
        (.response 200 "r" (.ok (.obj [("choices", .arr
          [.obj [("message", .obj [("content", .str "Hi")])]])])))).out.ctxOf)
      "MISTRAL_MESSAGES" = some (.str "Hi")
  ∧ some (JValue.str "Hi") ≠ some (JValue.arr [userMsg (.str "hi")]) :=
  ⟨rfl, fun h => JValue.noConfusion (Option.some.inj h)⟩

/-- `textHttpPhase` only ever writes the error key or the success key,
so every other context entry is preserved, whatever the HTTP outcome
(including the uncaught-raise outcomes). -/
theorem textHttpPhase_get_other (sn ek : String) (c : Ctx) (req : Request)
    (http : HttpResult) (k : String) (hek : ek ≠ k) (hsn : sn ≠ k) :
    Ctx.get ((textHttpPhase sn ek c req http).out.ctxOf) k = Ctx.get c k := by
  unfold textHttpPhase
  repeat' split
  all_goals
    first
      | rfl
      | exact Ctx.get_set_ne _ _ _ _ (Ne.symm hek)
      | exact Ctx.get_set_ne _ _ _ _ (Ne.symm hsn)

/-- C8 (amended): when `MISTRAL_MESSAGES` holds a list `ms`, `args` is
non-empty, the API key is present and the resolved `set_context` name is
not itself `"MISTRAL_MESSAGES"`, then after the call — whatever the HTTP
outcome, including the uncaught raises — the context entry
`MISTRAL_MESSAGES` holds `ms` with the user message `args[0]` appended
(the Python `messages.append` mutates the stored list in place before
the request is sent). -/
theorem C8_inplace_append (a0 : JValue) (rest : List JValue) (ctx : Ctx)
    (ms : List JValue) (http : HttpResult)
    (hkey : ((Ctx.get ctx "MISTRAL_API_KEY").getD .null).truthy = true)
    (hm : Ctx.get ctx "MISTRAL_MESSAGES" = some (.arr ms))
    (hs : setNameOf ctx ≠ "MISTRAL_MESSAGES") :
    Ctx.get ((ai_mistral_text (a0 :: rest) ctx http).out.ctxOf)
      "MISTRAL_MESSAGES" = some (.arr (ms ++ [userMsg a0])) := by
  have hrun : ai_mistral_text (a0 :: rest) ctx http
      = textHttpPhase (setNameOf ctx) (setNameOf ctx ++ "_error")
          (Ctx.set ctx "MISTRAL_MESSAGES" (.arr (ms ++ [userMsg a0])))
          { endpoint := "https://api.mistral.ai/v1/chat/completions",
            payload := textPayload ctx
              ((Ctx.get ctx "MISTRAL_MODEL").getD (.str "mistral-large-latest"))
              (ms ++ [userMsg a0]) ((a0 :: rest).getD 1 .null) }
          http := by
    simp [ai_mistral_text, hkey, hm]
  rw [hrun, textHttpPhase_get_other _ _ _ _ _ _
    (append_ne_of_not_suffix _ _ _ (by decide)) hs]
  exact Ctx.get_set_self ctx _ _

/-- Witness for `C8_inplace_append`: default `set_context`, transport
failure; the appended list is still visible to the caller. -/
theorem C8_inplace_append_witness :
    Ctx.get ((ai_mistral_text [.str "hi"]
        [("MISTRAL_API_KEY", .str "k"), ("MISTRAL_MESSAGES", .arr [])]
        (.reqError "down")).out.ctxOf) "MISTRAL_MESSAGES"
      = some (.arr [userMsg (.str "hi")]) :=
  C8_inplace_append (.str "hi") []
    [("MISTRAL_API_KEY", .str "k"), ("MISTRAL_MESSAGES", .arr [])] []
    (.reqError "down") rfl rfl (by decide)

/-! ### Claim C9 -/

/-- C9: `args = [None]` passes the text command's validation (which
checks only non-emptiness): with the key present the outbound request is
attempted and its message list ends in a user message with null content;
the embeddings and moderation commands instead reject `args[0] is None`
before any network call. -/
theorem C9_null_arg (ctx : Ctx) (http : HttpResult)
    (hkey : ((Ctx.get ctx "MISTRAL_API_KEY").getD .null).truthy = true)
    (hmm : Ctx.get ctx "MISTRAL_MESSAGES" = none
           ∨ ∃ ms, Ctx.get ctx "MISTRAL_MESSAGES" = some (.arr ms)) :
    (∃ r base, (ai_mistral_text [.null] ctx http).req = some r
       ∧ r.messages = some (.arr (base ++ [userMsg .null])))
  ∧ ((ai_mistral_embeddings [.null] ctx http).out.retOf = some (-1)
     ∧ (ai_mistral_embeddings [.null] ctx http).req = none)
  ∧ ((mistral_moderations [.null] ctx http).out.retOf = some (-1)
     ∧ (mistral_moderations [.null] ctx http).req = none) := by
  refine ⟨?_, ⟨rfl, rfl⟩, ⟨rfl, rfl⟩⟩
  rcases hmm with hm | ⟨ms, hm⟩
  · exact text_req_messages_of_none .null [] ctx http hkey hm
  · obtain ⟨r, hr, hmsg⟩ := text_req_messages_of_list .null [] ctx ms http hkey hm
    exact ⟨r, ms, hr, hmsg⟩

/-- Witness for `C9_null_arg`: context holding only the API key. -/
theorem C9_null_arg_witness :
    (∃ r base, (ai_mistral_text [.null] [("MISTRAL_API_KEY", .str "k")]
        (.reqError "down")).req = some r
      ∧ r.messages = some (.arr (base ++ [userMsg .null])))
  ∧ (ai_mistral_embeddings [.null] [("MISTRAL_API_KEY", .str "k")]
      (.reqError "down")).req = none := by
  have h := C9_null_arg [("MISTRAL_API_KEY", .str "k")] (.reqError "down") rfl
    (Or.inl rfl)
  exact ⟨h.1, h.2.1.2⟩

/-! ### Claim C10 -/

/-- C10: a 200 embeddings response whose `data` array is empty or absent
is treated as success: the command stores the empty list under the
result key and returns 0 — there is no empty-result failure analogous to
the image-generation command's. -/
theorem C10_empty_data (a0 : JValue) (rest : List JValue) (ctx : Ctx)
    (txt : String) (kvs : List (String × JValue))
    (hnn : a0.isNull = false)
    (hkey : ((Ctx.get ctx "MISTRAL_API_KEY").getD .null).truthy = true)
    (hdata : List.lookup "data" kvs = none
             ∨ List.lookup "data" kvs = some (.arr [])) :
    (ai_mistral_embeddings (a0 :: rest) ctx
        (.response 200 txt (.ok (.obj kvs)))).out
      = .ok 0 (Ctx.set ctx (setNameOf ctx) (.arr [])) := by
  rcases hdata with h | h <;>
    simp [ai_mistral_embeddings, hkey, hnn, h, pyIter, extractEmbeddings]

/-- Witness for `C10_empty_data`: `data` absent and `data = []`, both
stored as the empty list with status 0. -/
theorem C10_empty_data_witness :
    (ai_mistral_embeddings [.str "cat"] [("MISTRAL_API_KEY", .str "k")]
        (.response 200 "" (.ok (.obj [])))).out
      = .ok 0 [("prev", .arr []), ("MISTRAL_API_KEY", .str "k")]
  ∧ (ai_mistral_embeddings [.str "cat"] [("MISTRAL_API_KEY", .str "k")]
        (.response 200 "" (.ok (.obj [("data", .arr [])])))).out
      = .ok 0 [("prev", .arr []), ("MISTRAL_API_KEY", .str "k")] :=
  ⟨C10_empty_data (.str "cat") [] [("MISTRAL_API_KEY", .str "k")] "" []
      rfl rfl (Or.inl rfl),
   C10_empty_data (.str "cat") [] [("MISTRAL_API_KEY", .str "k")] ""
      [("data", .arr [])] rfl rfl (Or.inr rfl)⟩

end Mistral
